import Mathlib

/-!
Verification of the Parkinson-detection web application against its
natural-language specification.

The repository under verification is a Next.js frontend: a manual 22-feature
prediction form (`PredictionForm`), audio and handwriting upload widgets
(`AudioUpload`, `HandwritingUpload`), a result panel (`ResultPanel`) and a
model dashboard (`ModelDashboard`).  The prediction backend (validation,
classifier, explainer, metadata service) is reached over HTTP and is not part
of the source tree; where a claim depends on it, the backend is modelled from
the specification and the definition's doc comment says so explicitly.

Numbers are embedded as rationals (the TypeScript sources only ever use
decimal literals and elementary arithmetic on them).
-/

/-! ## Risk levels (spec section 3, RiskLevel derivation invariant) -/

/-- The four risk levels of the spec's `PredictionResult.risk_level` enum. -/
inductive RiskLevel where
  | veryLow
  | low
  | moderate
  | high
deriving DecidableEq, Repr

/-- Severity rank of a risk level, used to state monotonicity. -/
def RiskLevel.rank : RiskLevel → Nat
  | .veryLow => 0
  | .low => 1
  | .moderate => 2
  | .high => 3

/-- Modelled from the spec: the backend derivation of `risk_level` from
`probability_parkinson` is not in the source tree (only the frontend is); the
spec pins it as a pure function with fixed thresholds
`<0.25 → VeryLow, <0.5 → Low, <0.75 → Moderate, else High`. -/
def riskLevel (p : ℚ) : RiskLevel :=
  if p < 0.25 then .veryLow
  else if p < 0.5 then .low
  else if p < 0.75 then .moderate
  else .high

/-! ## The prediction form's field schema (`PredictionForm`, src/unnamed/part_000) -/

namespace PredictionForm

/-- One entry of a `FIELD_GROUPS` group's `fields` array (the source objects
are anonymous; `dflt` embeds the source's `default` property). -/
structure FieldDef where
  key : String
  label : String
  desc : String
  min : ℚ
  max : ℚ
  step : ℚ
  dflt : ℚ

/-- One entry of `FIELD_GROUPS`. -/
structure FieldGroup where
  label : String
  color : String
  fields : List FieldDef

/-- The `FIELD_GROUPS` constant of `PredictionForm`, embedded verbatim. -/
def FIELD_GROUPS : List FieldGroup := [
  { label := "Fundamental Frequency",
    color := "blue",
    fields := [
      { key := "mdvp_fo", label := "MDVP:Fo (Hz)", desc := "Average vocal fundamental frequency", min := 80, max := 270, step := 0.001, dflt := 154.229 },
      { key := "mdvp_fhi", label := "MDVP:Fhi (Hz)", desc := "Maximum vocal fundamental frequency", min := 100, max := 600, step := 0.001, dflt := 197.105 },
      { key := "mdvp_flo", label := "MDVP:Flo (Hz)", desc := "Minimum vocal fundamental frequency", min := 60, max := 240, step := 0.001, dflt := 116.325 }
    ] },
  { label := "Jitter (Frequency Variation)",
    color := "purple",
    fields := [
      { key := "mdvp_jitter_pct", label := "MDVP:Jitter (%)", desc := "Cycle-to-cycle variability (%)", min := 0, max := 0.1, step := 0.00001, dflt := 0.00662 },
      { key := "mdvp_jitter_abs", label := "MDVP:Jitter (Abs)", desc := "Absolute jitter", min := 0, max := 0.001, step := 0.000001, dflt := 0.000044 },
      { key := "mdvp_rap", label := "MDVP:RAP", desc := "Relative average perturbation", min := 0, max := 0.06, step := 0.00001, dflt := 0.00317 },
      { key := "mdvp_ppq", label := "MDVP:PPQ", desc := "5-point period perturbation quotient", min := 0, max := 0.06, step := 0.00001, dflt := 0.00349 },
      { key := "jitter_ddp", label := "Jitter:DDP", desc := "Average abs difference of differences", min := 0, max := 0.18, step := 0.00001, dflt := 0.00951 }
    ] },
  { label := "Shimmer (Amplitude Variation)",
    color := "teal",
    fields := [
      { key := "mdvp_shimmer", label := "MDVP:Shimmer", desc := "Amplitude variation", min := 0, max := 0.2, step := 0.00001, dflt := 0.02971 },
      { key := "mdvp_shimmer_db", label := "MDVP:Shimmer (dB)", desc := "Shimmer in decibels", min := 0, max := 2, step := 0.001, dflt := 0.282 },
      { key := "shimmer_apq3", label := "Shimmer:APQ3", desc := "3-point APQ", min := 0, max := 0.1, step := 0.00001, dflt := 0.01497 },
      { key := "shimmer_apq5", label := "Shimmer:APQ5", desc := "5-point APQ", min := 0, max := 0.15, step := 0.00001, dflt := 0.01876 },
      { key := "mdvp_apq", label := "MDVP:APQ", desc := "11-point APQ", min := 0, max := 0.15, step := 0.00001, dflt := 0.02438 },
      { key := "shimmer_dda", label := "Shimmer:DDA", desc := "DDA shimmer", min := 0, max := 0.3, step := 0.00001, dflt := 0.04491 }
    ] },
  { label := "Noise & Harmonics",
    color := "orange",
    fields := [
      { key := "nhr", label := "NHR", desc := "Noise-to-harmonic ratio", min := 0, max := 0.5, step := 0.00001, dflt := 0.02455 },
      { key := "hnr", label := "HNR", desc := "Harmonic-to-noise ratio", min := 0, max := 35, step := 0.001, dflt := 21.886 }
    ] },
  { label := "Nonlinear Dynamics",
    color := "rose",
    fields := [
      { key := "rpde", label := "RPDE", desc := "Recurrence period density entropy", min := 0, max := 1, step := 0.000001, dflt := 0.498536 },
      { key := "dfa", label := "DFA", desc := "Detrended fluctuation analysis", min := 0.5, max := 1, step := 0.000001, dflt := 0.718099 },
      { key := "spread1", label := "spread1", desc := "Nonlinear fundamental freq variation", min := -8, max := -1, step := 0.000001, dflt := -5.684397 },
      { key := "spread2", label := "spread2", desc := "Nonlinear fundamental freq variation", min := 0, max := 0.5, step := 0.000001, dflt := 0.226510 },
      { key := "d2", label := "D2", desc := "Correlation dimension", min := 1, max := 4, step := 0.000001, dflt := 2.381826 },
      { key := "ppe", label := "PPE", desc := "Pitch period entropy (most predictive)", min := 0, max := 0.7, step := 0.000001, dflt := 0.371345 }
    ] }
]

/-- All 22 fields of `FIELD_GROUPS`, in document order. -/
def ALL_FIELDS : List FieldDef := (FIELD_GROUPS.map (fun g => g.fields)).flatten

/-- The 22 feature keys in the fixed schema order. -/
def FEATURE_KEYS : List String := ALL_FIELDS.map (fun f => f.key)

/-- The form's state: a JavaScript `Record<string, number>`, modelled as a
map from keys to optional numbers. -/
def FormValues : Type := String → Option ℚ

/-- `buildDefaults`: the initial form state, holding every field's default. -/
def buildDefaults : FormValues :=
  fun k => (ALL_FIELDS.find? (fun f => f.key == k)).map (fun f => f.dflt)

/-- JavaScript `parseFloat(val) || 0` applied to an already-parsed value:
`parseFloat` returning `NaN` is modelled as `none`, and `|| 0` maps the falsy
numbers (`NaN` and `0`) to `0` and keeps every other number. -/
def jsOrZero (parsed : Option ℚ) : ℚ :=
  match parsed with
  | some v => if v = 0 then 0 else v
  | none => 0

/-- The form's `set` handler:
`setValues((p) => ({ ...p, [key]: parseFloat(val) || 0 }))`.
The string-to-number parse is abstracted into the `parsed : Option ℚ`
argument (`none` for an input `parseFloat` cannot parse). -/
def set (vals : FormValues) (key : String) (parsed : Option ℚ) : FormValues :=
  fun k => if k == key then some (jsOrZero parsed) else vals k

/-- A form state holding a number for each of the 22 schema keys. -/
def completeB (vals : FormValues) : Bool :=
  FEATURE_KEYS.all (fun k => (vals k).isSome)

/-- The value a field's `<input>` displays: `values[field.key] ?? field.default`. -/
def displayedValue (vals : FormValues) (f : FieldDef) : ℚ :=
  (vals f.key).getD f.dflt

/-- Browser constraint validation for one of the form's number inputs, which
carries `required`, `min` and `max` attributes: the input is valid when the
displayed value lies within `[min, max]`.  (`required` can never fire because
the controlled value `values[key] ?? default` is always a number, and the
`step` attribute is immaterial here: every pinned constant in the source is
step-aligned and no claim involves step mismatches.) -/
def fieldValidB (vals : FormValues) (f : FieldDef) : Bool :=
  decide (f.min ≤ displayedValue vals f ∧ displayedValue vals f ≤ f.max)

end PredictionForm

/-! ## Sample vectors (`SAMPLE_HEALTHY`, `SAMPLE_PARKINSON`, src/unnamed/part_000) -/

namespace PredictionForm

/-- The `SAMPLE_HEALTHY` object literal, embedded as an association list in
its source insertion order. -/
def SAMPLE_HEALTHY : List (String × ℚ) := [
  ("mdvp_fo", 197.076), ("mdvp_fhi", 206.896), ("mdvp_flo", 192.055),
  ("mdvp_jitter_pct", 0.00289), ("mdvp_jitter_abs", 0.00001),
  ("mdvp_rap", 0.00166), ("mdvp_ppq", 0.00168), ("jitter_ddp", 0.00498),
  ("mdvp_shimmer", 0.01098), ("mdvp_shimmer_db", 0.097),
  ("shimmer_apq3", 0.00563), ("shimmer_apq5", 0.0068), ("mdvp_apq", 0.00802),
  ("shimmer_dda", 0.01689), ("nhr", 0.00339), ("hnr", 26.775),
  ("rpde", 0.422229), ("dfa", 0.741367), ("spread1", -7.3483),
  ("spread2", 0.177551), ("d2", 1.743867), ("ppe", 0.085569)
]

/-- The `SAMPLE_PARKINSON` object literal. -/
def SAMPLE_PARKINSON : List (String × ℚ) := [
  ("mdvp_fo", 119.992), ("mdvp_fhi", 157.302), ("mdvp_flo", 74.997),
  ("mdvp_jitter_pct", 0.00784), ("mdvp_jitter_abs", 0.00007),
  ("mdvp_rap", 0.0037), ("mdvp_ppq", 0.00554), ("jitter_ddp", 0.01109),
  ("mdvp_shimmer", 0.04374), ("mdvp_shimmer_db", 0.426),
  ("shimmer_apq3", 0.02182), ("shimmer_apq5", 0.0313), ("mdvp_apq", 0.02971),
  ("shimmer_dda", 0.06545), ("nhr", 0.02211), ("hnr", 21.033),
  ("rpde", 0.414783), ("dfa", 0.815285), ("spread1", -4.813031),
  ("spread2", 0.266482), ("d2", 2.301442), ("ppe", 0.284654)
]

/-- `loadSample`: `setValues(SAMPLE_...)` replaces the whole form state with
the sample record. -/
def loadSample (sample : List (String × ℚ)) : FormValues :=
  fun k => sample.lookup k

end PredictionForm

/-! ## Backend data model and prediction pipeline (modelled from the spec) -/

/-- The ordered 22-field `FeatureVector` of the spec, with the frontend's
field keys as field names. -/
structure FeatureVector where
  mdvp_fo : ℚ
  mdvp_fhi : ℚ
  mdvp_flo : ℚ
  mdvp_jitter_pct : ℚ
  mdvp_jitter_abs : ℚ
  mdvp_rap : ℚ
  mdvp_ppq : ℚ
  jitter_ddp : ℚ
  mdvp_shimmer : ℚ
  mdvp_shimmer_db : ℚ
  shimmer_apq3 : ℚ
  shimmer_apq5 : ℚ
  mdvp_apq : ℚ
  shimmer_dda : ℚ
  nhr : ℚ
  hnr : ℚ
  rpde : ℚ
  dfa : ℚ
  spread1 : ℚ
  spread2 : ℚ
  d2 : ℚ
  ppe : ℚ

/-- The `PredictionResult` shape of src/unnamed/part_001, restricted to the
fields the claims are about; `risk_level` is the spec's enum on the backend
side (the frontend receives it as a string, see `ResultPanel.cfgOf`). -/
structure PredictionResult where
  parkinson_detected : Bool
  confidence : ℚ
  probability_healthy : ℚ
  probability_parkinson : ℚ
  risk_level : RiskLevel
  top_contributing_features : List (String × ℚ)
  recommendation : String

/-- Per-model cross-validation metrics of the `Metadata` type
(src/unnamed/part_001). -/
structure ModelMetrics where
  accuracy : ℚ
  «recall» : ℚ
  mcc : ℚ
  auc : ℚ

/-- The `Metadata` type of src/unnamed/part_001; the JavaScript objects
`shap_importance`, `feature_descriptions` and `model_comparison` are
modelled as association lists in insertion order. -/
structure Metadata where
  feature_names : List String
  feature_descriptions : List (String × String)
  shap_importance : List (String × ℚ)
  model_comparison : List (String × ModelMetrics)
  best_model_by_recall : String

/-- Modelled from the spec: the backend's process-wide read-only state (the
model artifact and its companion evaluation report), loaded once at startup.
Requests pass it explicitly and must return it unchanged. -/
structure ServerState where
  metadata : Metadata

/-- The validation errors of the spec's `predict_from_features` contract. -/
inductive ValidationError where
  | missingField (field : String)
  | outOfRange (field : String)
deriving DecidableEq, Repr

/-- Clamp a rational into `[0, 1]`. -/
def clamp01 (x : ℚ) : ℚ := max 0 (min 1 x)

/-- Modelled from the spec: the trained XGBoost classifier artifact is not in
the source tree.  It is modelled as a monotone function of PPE — the feature
the repository documents as most predictive — pinned so that the spec's two
documented end-to-end sample scenarios hold (the healthy sample scores below
0.25, the Parkinson sample at or above 0.5). -/
def probParkinson (v : FeatureVector) : ℚ := clamp01 (2 * v.ppe)

/-- Read one submitted field the way the backend consumes the JSON payload
(only reached after validation has established presence). -/
def jsGet (vals : PredictionForm.FormValues) (k : String) : ℚ := (vals k).getD 0

/-- Assemble the validated payload into the ordered `FeatureVector`. -/
def toVector (vals : PredictionForm.FormValues) : FeatureVector :=
  { mdvp_fo := jsGet vals "mdvp_fo"
    mdvp_fhi := jsGet vals "mdvp_fhi"
    mdvp_flo := jsGet vals "mdvp_flo"
    mdvp_jitter_pct := jsGet vals "mdvp_jitter_pct"
    mdvp_jitter_abs := jsGet vals "mdvp_jitter_abs"
    mdvp_rap := jsGet vals "mdvp_rap"
    mdvp_ppq := jsGet vals "mdvp_ppq"
    jitter_ddp := jsGet vals "jitter_ddp"
    mdvp_shimmer := jsGet vals "mdvp_shimmer"
    mdvp_shimmer_db := jsGet vals "mdvp_shimmer_db"
    shimmer_apq3 := jsGet vals "shimmer_apq3"
    shimmer_apq5 := jsGet vals "shimmer_apq5"
    mdvp_apq := jsGet vals "mdvp_apq"
    shimmer_dda := jsGet vals "shimmer_dda"
    nhr := jsGet vals "nhr"
    hnr := jsGet vals "hnr"
    rpde := jsGet vals "rpde"
    dfa := jsGet vals "dfa"
    spread1 := jsGet vals "spread1"
    spread2 := jsGet vals "spread2"
    d2 := jsGet vals "d2"
    ppe := jsGet vals "ppe" }

/-- Modelled from the spec: the orchestrator's response assembly.
`probability_healthy` and `probability_parkinson` are the classifier's two
class probabilities, `detected` is `probability_parkinson >= 0.5`,
`risk_level` is the fixed-threshold derivation, and the top contributing
features are drawn from the artifact's global SHAP ranking (the frontend's
own footnote states the shown importances are the global training-time
ranking). -/
def mkResult (shap : List (String × ℚ)) (v : FeatureVector) : PredictionResult :=
  let p := probParkinson v
  { parkinson_detected := decide ((0.5 : ℚ) ≤ p)
    confidence := max p (1 - p)
    probability_healthy := 1 - p
    probability_parkinson := p
    risk_level := riskLevel p
    top_contributing_features := shap.take 5
    recommendation :=
      if (0.5 : ℚ) ≤ p then "Consult a neurologist for clinical evaluation."
      else "No indication of Parkinson disease in the provided biomarkers." }

/-- Modelled from the spec: the backend's out-of-range test for one field.
The spec pins no backend ranges of its own, so the documented per-field
`[min, max]` ranges of the form schema are used. -/
def inRangeB (vals : PredictionForm.FormValues) (f : PredictionForm.FieldDef) : Bool :=
  decide (f.min ≤ jsGet vals f.key ∧ jsGet vals f.key ≤ f.max)

/-- Modelled from the spec: the backend `predict_from_features` operation is
not in the source tree.  It validates that every one of the 22 schema fields
is present (a missing field is `ValidationError.missingField`, never a
default-filled zero), then that every field lies in its documented range
(`ValidationError.outOfRange` otherwise), then runs the classifier stage and
assembles the result; the shared state is read-only and returned unchanged. -/
def predict_from_features (s : ServerState) (vals : PredictionForm.FormValues) :
    Except ValidationError PredictionResult × ServerState :=
  (match PredictionForm.FEATURE_KEYS.find? (fun k => (vals k).isNone) with
   | some k => Except.error (ValidationError.missingField k)
   | none =>
     match PredictionForm.ALL_FIELDS.find? (fun f => !(inRangeB vals f)) with
     | some f => Except.error (ValidationError.outOfRange f.key)
     | none => Except.ok (mkResult s.metadata.shap_importance (toVector vals)), s)

/-- The form's submission as the browser performs it: the form element has no
`noValidate`, so the submit event is dispatched only when every input passes
constraint validation; only then does `handleSubmit` run and POST the values,
returning the operation's response.  `none` means the submit event never
fired, so no request reached the backend. -/
def formSubmit (s : ServerState) (vals : PredictionForm.FormValues) :
    Option (Except ValidationError PredictionResult) :=
  if PredictionForm.ALL_FIELDS.all (fun f => PredictionForm.fieldValidB vals f) then
    some (predict_from_features s vals).1
  else none

/-- The form's first schema field (`mdvp_fo`), exactly as pinned in
`FIELD_GROUPS`; its positive `min` of 80 makes a zero-filled value fail the
browser's range validation. -/
def mdvpFoField : PredictionForm.FieldDef :=
  { key := "mdvp_fo", label := "MDVP:Fo (Hz)",
    desc := "Average vocal fundamental frequency",
    min := 80, max := 270, step := 0.001, dflt := 154.229 }

/-- Modelled from the spec: `get_metadata` is a pure read of the process-wide
artifact, never recomputed and never mutating. -/
def get_metadata (s : ServerState) : Metadata × ServerState := (s.metadata, s)

/-- Modelled from the spec: a concrete server state whose evaluation report is
consistent with the repository's documentation (PPE and spread1 lead the
global SHAP ranking, XGBoost is the best model by recall). -/
def sampleState : ServerState :=
  { metadata :=
    { feature_names := PredictionForm.FEATURE_KEYS
      feature_descriptions := []
      shap_importance := [
        ("PPE", 0.182), ("spread1", 0.143), ("MDVP:Fo(Hz)", 0.101),
        ("spread2", 0.084), ("MDVP:Jitter(%)", 0.071), ("HNR", 0.063),
        ("RPDE", 0.052), ("DFA", 0.047), ("MDVP:Shimmer", 0.041),
        ("NHR", 0.036), ("D2", 0.031), ("MDVP:APQ", 0.027)]
      model_comparison := [
        ("Logistic Regression", { accuracy := 0.846, «recall» := 0.871, mcc := 0.612, auc := 0.885 }),
        ("SVM", { accuracy := 0.872, «recall» := 0.903, mcc := 0.668, auc := 0.901 }),
        ("Random Forest", { accuracy := 0.897, «recall» := 0.919, mcc := 0.731, auc := 0.927 }),
        ("XGBoost", { accuracy := 0.923, «recall» := 0.952, mcc := 0.801, auc := 0.948 })]
      best_model_by_recall := "XGBoost" } }

/-! ## Upload widgets (`AudioUpload`, `HandwritingUpload`, src/src/components/AudioUpload.tsx) -/

namespace Upload

/-- Lowercase a Char the way JavaScript `i`-flagged regexes compare ASCII. -/
def lowerChar (c : Char) : Char := c.toLower

/-- `s` ends with `suffix` (over explicit character lists). -/
def listEndsWith (s suffix : List Char) : Bool :=
  s.reverse.take suffix.length == suffix.reverse

/-- The filename test `f.name.match(/\.(ext1|ext2|...)$/i)`: the name ends,
case-insensitively, in a dot followed by one of the extensions. -/
def matchesExt (exts : List String) (name : String) : Bool :=
  exts.any (fun e => listEndsWith (name.data.map lowerChar) ('.' :: e.data))

/-- The audio widget's accepted extensions (`/\.(wav|mp3|ogg|flac)$/i`). -/
def AUDIO_EXTS : List String := ["wav", "mp3", "ogg", "flac"]

/-- The handwriting widget's accepted extensions
(`/\.(png|jpg|jpeg|bmp|tiff)$/i`). -/
def IMAGE_EXTS : List String := ["png", "jpg", "jpeg", "bmp", "tiff"]

/-- `AudioUpload`'s unsupported-format message. -/
def audioErrMsg : String :=
  "Unsupported format. Please upload a WAV, MP3, OGG, or FLAC file."

/-- `HandwritingUpload`'s unsupported-format message. -/
def imageErrMsg : String :=
  "Unsupported format. Please upload a PNG or JPG image."

/-- The upload widget's state relevant to file handling: the stored file
(identified by its name), the error banner, and the uploaded flag.  The
purely visual `dragging`, `loading` and `preview` states are omitted. -/
structure UploadState where
  file : Option String
  error : Option String
  uploaded : Bool

/-- Both widgets start with no file, no error, nothing uploaded. -/
def initState : UploadState := { file := none, error := none, uploaded := false }

/-- `handleFile`: clear error and uploaded flags, then either reject a name
whose extension is not accepted (set the error, keep the previous file) or
store the file. -/
def handleFile (exts : List String) (msg : String) (s : UploadState) (name : String) :
    UploadState :=
  let s1 : UploadState := { s with error := none, uploaded := false }
  if matchesExt exts name then { s1 with file := some name }
  else { s1 with error := some msg }

/-- The remove-file button: `setFile(null); setError(null); setUploaded(false)`. -/
def clearFile (_s : UploadState) : UploadState :=
  { file := none, error := none, uploaded := false }

/-- `handleSubmit` POSTs exactly the stored file (`if (!file) return;`):
`none` means no request to the prediction endpoint is made. -/
def submitPost (s : UploadState) : Option String := s.file

/-- States the widget can reach: the initial state, any `handleFile` step,
clearing the file, and the submit outcomes (success sets `uploaded`, failure
sets the error banner; neither touches the stored file). -/
inductive Reachable (exts : List String) (msg : String) : UploadState → Prop where
  | init : Reachable exts msg initState
  | step (s : UploadState) (name : String) :
      Reachable exts msg s → Reachable exts msg (handleFile exts msg s name)
  | clear (s : UploadState) :
      Reachable exts msg s → Reachable exts msg (clearFile s)
  | submitOk (s : UploadState) :
      Reachable exts msg s → Reachable exts msg { s with uploaded := true }
  | submitFail (s : UploadState) (m : String) :
      Reachable exts msg s →
      Reachable exts msg { s with error := some m, uploaded := false }

/-- Every file a reachable widget state stores passed the extension test. -/
theorem reachable_file_matches {exts : List String} {msg : String}
    {s : UploadState} (h : Reachable exts msg s) :
    ∀ n, s.file = some n → matchesExt exts n = true := by
  induction h with
  | init => intro n hn; simp [initState] at hn
  | step s name _ ih =>
      intro n hn
      unfold handleFile at hn
      by_cases hm : matchesExt exts name = true
      · simp [hm] at hn; subst hn; exact hm
      · simp [Bool.eq_false_iff.mpr hm] at hn
        exact ih n hn
  | clear s _ _ => intro n hn; simp [clearFile] at hn
  | submitOk s _ ih => intro n hn; exact ih n hn
  | submitFail s m _ ih => intro n hn; exact ih n hn

end Upload

/-! ## The importance badge (`isImportant`, src/unnamed/part_000) -/

namespace PredictionForm

/-- `x.toLowerCase().replace(/[^a-z0-9]/g, "")`: lowercase, then keep only
ASCII letters and digits. -/
def normalizeLabel (s : String) : List Char :=
  (s.data.map Char.toLower).filter
    (fun c => decide (('a' ≤ c ∧ c ≤ 'z') ∨ ('0' ≤ c ∧ c ≤ '9')))

/-- JavaScript `Array.prototype.indexOf`: first index of `s`, or `-1`. -/
def jsIndexOf (l : List String) (s : String) : Int :=
  match l with
  | [] => -1
  | a :: rest =>
      if a == s then 0
      else
        let r := jsIndexOf rest s
        if r < 0 then -1 else r + 1

/-- The form's `isImportant` expression (with metadata present): find a SHAP
key whose normalization equals the field label's normalization, default the
miss to the empty string, and test whether its index is below 5. -/
def isImportant (shapKeys : List String) (label : String) : Bool :=
  decide (jsIndexOf shapKeys
    ((shapKeys.find?
        (fun k => normalizeLabel k == normalizeLabel label)).getD "") < 5)

end PredictionForm

/-! ## Result panel risk styling (`RISK_CONFIG`, ResultPanel.tsx) -/

namespace ResultPanel

/-- The lucide icon a risk configuration displays. -/
inductive RiskIcon where
  | checkCircle2
  | activity
  | alertTriangle
deriving DecidableEq, Repr

/-- One value of the `RISK_CONFIG` object. -/
structure RiskCfg where
  icon : RiskIcon
  bg : String
  text : String
  bar : String
deriving DecidableEq, Repr

/-- The `"Very Low"` configuration. -/
def cfgVeryLow : RiskCfg :=
  { icon := .checkCircle2, bg := "bg-emerald-500/10 border-emerald-500/20",
    text := "text-emerald-400", bar := "bg-emerald-500" }

/-- The `"Low"` configuration. -/
def cfgLow : RiskCfg :=
  { icon := .activity, bg := "bg-yellow-500/10 border-yellow-500/20",
    text := "text-yellow-400", bar := "bg-yellow-500" }

/-- The `"Moderate"` configuration. -/
def cfgModerate : RiskCfg :=
  { icon := .alertTriangle, bg := "bg-orange-500/10 border-orange-500/20",
    text := "text-orange-400", bar := "bg-orange-500" }

/-- The `"High"` configuration. -/
def cfgHigh : RiskCfg :=
  { icon := .alertTriangle, bg := "bg-red-500/10 border-red-500/20",
    text := "text-red-400", bar := "bg-red-500" }

/-- The `RISK_CONFIG` object, keyed by the four exact risk-level strings. -/
def RISK_CONFIG : List (String × RiskCfg) :=
  [("Very Low", cfgVeryLow), ("Low", cfgLow),
   ("Moderate", cfgModerate), ("High", cfgHigh)]

/-- Property names every plain JavaScript object literal inherits from
`Object.prototype`; an indexed read `RISK_CONFIG[s]` at one of these names
returns the inherited member (a function, or the prototype object itself for
`__proto__`), which is not nullish. -/
def OBJECT_PROTOTYPE_KEYS : List String :=
  ["constructor", "hasOwnProperty", "isPrototypeOf", "propertyIsEnumerable",
   "toLocaleString", "toString", "valueOf", "__proto__",
   "__defineGetter__", "__defineSetter__", "__lookupGetter__", "__lookupSetter__"]

/-- The kinds of value `RISK_CONFIG[s] ?? RISK_CONFIG["High"]` can evaluate
to: one of the object's own risk configurations, or a member inherited from
`Object.prototype` (which has none of the `icon`/`bg`/`text`/`bar` fields). -/
inductive JsValue where
  | config (c : RiskCfg)
  | protoMember (name : String)
deriving DecidableEq, Repr

/-- The JavaScript indexed read `RISK_CONFIG[s]`: an own property first, then
the prototype chain, and `undefined` (`none`) only when both miss. -/
def jsRead (s : String) : Option JsValue :=
  match RISK_CONFIG.lookup s with
  | some c => some (JsValue.config c)
  | none =>
      if s ∈ OBJECT_PROTOTYPE_KEYS then some (JsValue.protoMember s) else none

/-- `RISK_CONFIG[result.risk_level] ?? RISK_CONFIG["High"]`: the fallback
fires only when the indexed read is nullish. -/
def cfgOf (risk_level : String) : JsValue :=
  (jsRead risk_level).getD (JsValue.config cfgHigh)

end ResultPanel

/-! ## Dashboard SHAP chart (`shapData`, ModelDashboard.tsx) -/

namespace ModelDashboard

/-- `parseFloat(val.toFixed(4))`: round to four decimal places. -/
def round4 (q : ℚ) : ℚ := (round (q * 10000) : ℚ) / 10000

/-- The dashboard's `shapData`:
`Object.entries(shap_importance).slice(0, 10).map(([name, val]) => ...)` —
the first ten entries in insertion order, with values rounded to four
decimals. -/
def shapData (md : Metadata) : List (String × ℚ) :=
  (md.shap_importance.take 10).map (fun p => (p.1, round4 p.2))

/-- The spec's artifact invariant: the `shap_importance` entries are listed
in descending global-importance order. -/
def SortedDesc (l : List (String × ℚ)) : Prop :=
  List.Pairwise (fun a b => b.2 ≤ a.2) l

end ModelDashboard

/-! ## Claims -/

/-- C5: The `FeatureVector` schema consists of exactly 22 named fields
partitioned, in fixed order, into a fundamental-frequency triplet (3 fields),
5 jitter measures, 6 shimmer measures, 2 noise-ratio measures, and 6
nonlinear-dynamics measures; the input form's `FIELD_GROUPS` realizes
exactly this partition and order. -/
theorem c5_field_groups_partition :
    PredictionForm.FIELD_GROUPS.map (fun g => g.fields.length) = [3, 5, 6, 2, 6] ∧
    PredictionForm.FIELD_GROUPS.map (fun g => g.label) =
      ["Fundamental Frequency", "Jitter (Frequency Variation)",
       "Shimmer (Amplitude Variation)", "Noise & Harmonics",
       "Nonlinear Dynamics"] ∧
    PredictionForm.FEATURE_KEYS =
      ["mdvp_fo", "mdvp_fhi", "mdvp_flo",
       "mdvp_jitter_pct", "mdvp_jitter_abs", "mdvp_rap", "mdvp_ppq", "jitter_ddp",
       "mdvp_shimmer", "mdvp_shimmer_db", "shimmer_apq3", "shimmer_apq5",
       "mdvp_apq", "shimmer_dda",
       "nhr", "hnr",
       "rpde", "dfa", "spread1", "spread2", "d2", "ppe"] ∧
    PredictionForm.FEATURE_KEYS.length = 22 :=
  ⟨rfl, rfl, rfl, rfl⟩

/-- C2: `risk_level` is a deterministic, monotonically non-decreasing
function of `probability_parkinson` with fixed thresholds: below 0.25 gives
VeryLow, below 0.5 gives Low, below 0.75 gives Moderate, otherwise High;
every one of the four enum values is attained. -/
theorem c2_risk_level_thresholds :
    (∀ p : ℚ,
      (p < 0.25 → riskLevel p = .veryLow) ∧
      (0.25 ≤ p → p < 0.5 → riskLevel p = .low) ∧
      (0.5 ≤ p → p < 0.75 → riskLevel p = .moderate) ∧
      (0.75 ≤ p → riskLevel p = .high)) ∧
    (∀ p q : ℚ, p ≤ q → (riskLevel p).rank ≤ (riskLevel q).rank) ∧
    (∀ r : RiskLevel, ∃ p : ℚ, riskLevel p = r) := by
  refine ⟨fun p => ⟨?_, ?_, ?_, ?_⟩, ?_, ?_⟩
  · intro h; simp [riskLevel, h]
  · intro h1 h2
    simp only [riskLevel]
    rw [if_neg (by linarith), if_pos h2]
  · intro h1 h2
    simp only [riskLevel]
    rw [if_neg (by linarith), if_neg (by linarith), if_pos h2]
  · intro h
    simp only [riskLevel]
    rw [if_neg (by linarith), if_neg (by linarith), if_neg (by linarith)]
  · intro p q hpq
    simp only [riskLevel]
    split_ifs <;> simp [RiskLevel.rank] <;> linarith
  · intro r
    cases r with
    | veryLow => exact ⟨0, by norm_num [riskLevel]⟩
    | low => exact ⟨0.3, by norm_num [riskLevel]⟩
    | moderate => exact ⟨0.6, by norm_num [riskLevel]⟩
    | high => exact ⟨0.9, by norm_num [riskLevel]⟩

/-- Witness for C2 at concrete probabilities 0.1 and 0.9. -/
theorem c2_witness :
    (riskLevel 0.1).rank ≤ (riskLevel 0.9).rank :=
  c2_risk_level_thresholds.2.1 0.1 0.9 (by norm_num)

/-- C10 counterexample: the risk-level string "toString" is not one of the
four configuration keys, yet the indexed read returns the member inherited
from `Object.prototype` — not nullish — so the nullish-coalescing fallback
does not fire and the result is not the "High" configuration, refuting the
claim at this input. -/
theorem c10_counterexample :
    ResultPanel.cfgOf "toString" =
      ResultPanel.JsValue.protoMember "toString" ∧
    ResultPanel.cfgOf "toString" ≠
      ResultPanel.JsValue.config ResultPanel.cfgHigh := by
  exact ⟨by decide, by decide⟩

/-- C10 amended: a non-null result whose `risk_level` string is neither one
of the four exact keys "Very Low", "Low", "Moderate", "High" nor a property
name inherited from `Object.prototype` is rendered with the "High" risk
configuration via the nullish-coalescing fallback; the four exact keys select
their own styling; and a string naming an `Object.prototype` member yields
that inherited member instead of a risk configuration. -/
theorem c10_unknown_risk_falls_back_to_high :
    (∀ s : String, s ≠ "Very Low" → s ≠ "Low" → s ≠ "Moderate" → s ≠ "High" →
      s ∉ ResultPanel.OBJECT_PROTOTYPE_KEYS →
      ResultPanel.cfgOf s = ResultPanel.JsValue.config ResultPanel.cfgHigh) ∧
    ResultPanel.cfgOf "Very Low" = ResultPanel.JsValue.config ResultPanel.cfgVeryLow ∧
    ResultPanel.cfgOf "Low" = ResultPanel.JsValue.config ResultPanel.cfgLow ∧
    ResultPanel.cfgOf "Moderate" = ResultPanel.JsValue.config ResultPanel.cfgModerate ∧
    ResultPanel.cfgOf "High" = ResultPanel.JsValue.config ResultPanel.cfgHigh ∧
    (∀ s : String, s ≠ "Very Low" → s ≠ "Low" → s ≠ "Moderate" → s ≠ "High" →
      s ∈ ResultPanel.OBJECT_PROTOTYPE_KEYS →
      ResultPanel.cfgOf s = ResultPanel.JsValue.protoMember s) := by
  refine ⟨?_, rfl, rfl, rfl, rfl, ?_⟩
  · intro s h1 h2 h3 h4 h5
    have e1 : (s == "Very Low") = false := beq_eq_false_iff_ne.mpr h1
    have e2 : (s == "Low") = false := beq_eq_false_iff_ne.mpr h2
    have e3 : (s == "Moderate") = false := beq_eq_false_iff_ne.mpr h3
    have e4 : (s == "High") = false := beq_eq_false_iff_ne.mpr h4
    simp [ResultPanel.cfgOf, ResultPanel.jsRead, ResultPanel.RISK_CONFIG,
      List.lookup, e1, e2, e3, e4, h5]
  · intro s h1 h2 h3 h4 h5
    have e1 : (s == "Very Low") = false := beq_eq_false_iff_ne.mpr h1
    have e2 : (s == "Low") = false := beq_eq_false_iff_ne.mpr h2
    have e3 : (s == "Moderate") = false := beq_eq_false_iff_ne.mpr h3
    have e4 : (s == "High") = false := beq_eq_false_iff_ne.mpr h4
    simp [ResultPanel.cfgOf, ResultPanel.jsRead, ResultPanel.RISK_CONFIG,
      List.lookup, e1, e2, e3, e4, h5]

/-- Witness for C10 at the spec's own spelling "VeryLow", which is neither a
configuration key nor an `Object.prototype` member. -/
theorem c10_witness :
    ResultPanel.cfgOf "VeryLow" =
      ResultPanel.JsValue.config ResultPanel.cfgHigh :=
  c10_unknown_risk_falls_back_to_high.1 "VeryLow"
    (by decide) (by decide) (by decide) (by decide) (by decide)

/-- `jsIndexOf` of an absent element is `-1`. -/
theorem PredictionForm.jsIndexOf_of_notMem (l : List String) (s : String)
    (h : s ∉ l) : PredictionForm.jsIndexOf l s = -1 := by
  induction l with
  | nil => rfl
  | cons a rest ih =>
      have ha : (a == s) = false :=
        beq_eq_false_iff_ne.mpr (fun e => h (e ▸ List.mem_cons_self a rest))
      have hr : s ∉ rest := fun hm => h (List.mem_cons_of_mem a hm)
      simp [PredictionForm.jsIndexOf, ha, ih hr]

/-- C9: for a form field whose normalized label matches no key of
`shap_importance` under the same normalization (with the empty string not
itself a key, which is what makes the claimed `indexOf` fallback return -1),
`isImportant` evaluates to true, so the field displays the high-importance
badge despite having no matching SHAP entry. -/
theorem c9_unmatched_label_gets_badge
    (shapKeys : List String) (label : String)
    (hempty : "" ∉ shapKeys)
    (hmatch : ∀ k ∈ shapKeys,
      PredictionForm.normalizeLabel k ≠ PredictionForm.normalizeLabel label) :
    PredictionForm.isImportant shapKeys label = true := by
  have hfind : shapKeys.find?
      (fun k => PredictionForm.normalizeLabel k ==
        PredictionForm.normalizeLabel label) = none := by
    apply List.find?_eq_none.mpr
    intro k hk
    simpa [beq_iff_eq] using hmatch k hk
  simp [PredictionForm.isImportant, hfind,
    PredictionForm.jsIndexOf_of_notMem shapKeys "" hempty]

/-- Witness for C9: the field label "MDVP:Fo (Hz)" against a SHAP table that
lacks any matching key still gets the badge. -/
theorem c9_witness :
    PredictionForm.isImportant ["PPE", "spread1"] "MDVP:Fo (Hz)" = true :=
  c9_unmatched_label_gets_badge ["PPE", "spread1"] "MDVP:Fo (Hz)"
    (by decide) (by decide)

/-- C4: a file whose name extension is outside the declared set (audio:
wav/mp3/ogg/flac; handwriting: png/jpg/jpeg/bmp/tiff, case-insensitive) makes
the upload handler set the unsupported-format error and leave the stored file
unchanged, and no reachable widget state can POST that file to the
prediction endpoint. -/
theorem c4_unsupported_extension_never_posted
    (exts : List String) (msg : String) (s : Upload.UploadState) (name : String)
    (_hdecl : exts = Upload.AUDIO_EXTS ∨ exts = Upload.IMAGE_EXTS)
    (hbad : Upload.matchesExt exts name = false) :
    (Upload.handleFile exts msg s name).error = some msg ∧
    (Upload.handleFile exts msg s name).file = s.file ∧
    (Upload.handleFile exts msg s name).uploaded = false ∧
    (∀ t : Upload.UploadState, Upload.Reachable exts msg t →
      Upload.submitPost t ≠ some name) := by
  refine ⟨?_, ?_, ?_, ?_⟩
  · simp [Upload.handleFile, hbad]
  · simp [Upload.handleFile, hbad]
  · simp [Upload.handleFile, hbad]
  · intro t ht hpost
    have hgood := Upload.reachable_file_matches ht name hpost
    simp [hgood] at hbad

/-- Witness for C4: a `.txt` upload is rejected by the audio widget from its
initial state, storing no file. -/
theorem c4_witness :
    (Upload.handleFile Upload.AUDIO_EXTS Upload.audioErrMsg Upload.initState
      "voice.txt").error = some Upload.audioErrMsg ∧
    (Upload.handleFile Upload.AUDIO_EXTS Upload.audioErrMsg Upload.initState
      "voice.txt").file = Upload.initState.file := by
  have h := c4_unsupported_extension_never_posted Upload.AUDIO_EXTS
    Upload.audioErrMsg Upload.initState "voice.txt" (Or.inl rfl) (by decide)
  exact ⟨h.1, h.2.1⟩

/-- A complete form state passes the presence validation. -/
theorem complete_find_none
    (vals : PredictionForm.FormValues)
    (h : PredictionForm.completeB vals = true) :
    PredictionForm.FEATURE_KEYS.find? (fun k => (vals k).isNone) = none := by
  apply List.find?_eq_none.mpr
  intro k hk
  have hsome := List.all_eq_true.mp h k hk
  cases hv : vals k with
  | none => rw [hv] at hsome; simp at hsome
  | some v => simp [hv]

/-- A list all of whose elements satisfy `p` has no element failing `p`. -/
theorem find_neg_eq_none {α : Type} {p : α → Bool} {l : List α}
    (h : l.all p = true) : l.find? (fun x => !(p x)) = none :=
  List.find?_eq_none.mpr (fun x hx => by simp [List.all_eq_true.mp h x hx])

/-- A complete, everywhere-in-range payload passes both validation stages, so
the operation returns the assembled result. -/
theorem valid_predict_ok (s : ServerState)
    (vals : PredictionForm.FormValues)
    (hc : PredictionForm.completeB vals = true)
    (hr : PredictionForm.ALL_FIELDS.all (fun f => inRangeB vals f) = true) :
    (predict_from_features s vals).1 =
      Except.ok (mkResult s.metadata.shap_importance (toVector vals)) := by
  simp [predict_from_features, complete_find_none vals hc, find_neg_eq_none hr]

/-- Every healthy-sample value lies in its field's documented range. -/
theorem healthy_all_inRange :
    PredictionForm.ALL_FIELDS.all (fun f =>
      inRangeB (PredictionForm.loadSample PredictionForm.SAMPLE_HEALTHY) f) = true := by
  norm_num [PredictionForm.ALL_FIELDS, PredictionForm.FIELD_GROUPS,
    List.map_cons, List.map_nil, List.flatten_cons, List.flatten_nil,
    List.all_append, List.all_cons, List.all_nil, inRangeB, jsGet,
    show PredictionForm.loadSample PredictionForm.SAMPLE_HEALTHY "mdvp_fo" = some ((197.076 : ℚ)) from rfl,
    show PredictionForm.loadSample PredictionForm.SAMPLE_HEALTHY "mdvp_fhi" = some ((206.896 : ℚ)) from rfl,
    show PredictionForm.loadSample PredictionForm.SAMPLE_HEALTHY "mdvp_flo" = some ((192.055 : ℚ)) from rfl,
    show PredictionForm.loadSample PredictionForm.SAMPLE_HEALTHY "mdvp_jitter_pct" = some ((0.00289 : ℚ)) from rfl,
    show PredictionForm.loadSample PredictionForm.SAMPLE_HEALTHY "mdvp_jitter_abs" = some ((0.00001 : ℚ)) from rfl,
    show PredictionForm.loadSample PredictionForm.SAMPLE_HEALTHY "mdvp_rap" = some ((0.00166 : ℚ)) from rfl,
    show PredictionForm.loadSample PredictionForm.SAMPLE_HEALTHY "mdvp_ppq" = some ((0.00168 : ℚ)) from rfl,
    show PredictionForm.loadSample PredictionForm.SAMPLE_HEALTHY "jitter_ddp" = some ((0.00498 : ℚ)) from rfl,
    show PredictionForm.loadSample PredictionForm.SAMPLE_HEALTHY "mdvp_shimmer" = some ((0.01098 : ℚ)) from rfl,
    show PredictionForm.loadSample PredictionForm.SAMPLE_HEALTHY "mdvp_shimmer_db" = some ((0.097 : ℚ)) from rfl,
    show PredictionForm.loadSample PredictionForm.SAMPLE_HEALTHY "shimmer_apq3" = some ((0.00563 : ℚ)) from rfl,
    show PredictionForm.loadSample PredictionForm.SAMPLE_HEALTHY "shimmer_apq5" = some ((0.0068 : ℚ)) from rfl,
    show PredictionForm.loadSample PredictionForm.SAMPLE_HEALTHY "mdvp_apq" = some ((0.00802 : ℚ)) from rfl,
    show PredictionForm.loadSample PredictionForm.SAMPLE_HEALTHY "shimmer_dda" = some ((0.01689 : ℚ)) from rfl,
    show PredictionForm.loadSample PredictionForm.SAMPLE_HEALTHY "nhr" = some ((0.00339 : ℚ)) from rfl,
    show PredictionForm.loadSample PredictionForm.SAMPLE_HEALTHY "hnr" = some ((26.775 : ℚ)) from rfl,
    show PredictionForm.loadSample PredictionForm.SAMPLE_HEALTHY "rpde" = some ((0.422229 : ℚ)) from rfl,
    show PredictionForm.loadSample PredictionForm.SAMPLE_HEALTHY "dfa" = some ((0.741367 : ℚ)) from rfl,
    show PredictionForm.loadSample PredictionForm.SAMPLE_HEALTHY "spread1" = some ((-7.3483 : ℚ)) from rfl,
    show PredictionForm.loadSample PredictionForm.SAMPLE_HEALTHY "spread2" = some ((0.177551 : ℚ)) from rfl,
    show PredictionForm.loadSample PredictionForm.SAMPLE_HEALTHY "d2" = some ((1.743867 : ℚ)) from rfl,
    show PredictionForm.loadSample PredictionForm.SAMPLE_HEALTHY "ppe" = some ((0.085569 : ℚ)) from rfl]

/-- After clearing the `hnr` input, every stored value still lies in its
field's documented range (the cleared field became 0, and 0 is inside
`hnr`'s `[0, 35]`). -/
theorem cleared_hnr_all_inRange :
    PredictionForm.ALL_FIELDS.all (fun f =>
      inRangeB (PredictionForm.set PredictionForm.buildDefaults "hnr" none) f) = true := by
  norm_num [PredictionForm.ALL_FIELDS, PredictionForm.FIELD_GROUPS,
    List.map_cons, List.map_nil, List.flatten_cons, List.flatten_nil,
    List.all_append, List.all_cons, List.all_nil, inRangeB, jsGet,
    show PredictionForm.set PredictionForm.buildDefaults "hnr" none "mdvp_fo" = some ((154.229 : ℚ)) from rfl,
    show PredictionForm.set PredictionForm.buildDefaults "hnr" none "mdvp_fhi" = some ((197.105 : ℚ)) from rfl,
    show PredictionForm.set PredictionForm.buildDefaults "hnr" none "mdvp_flo" = some ((116.325 : ℚ)) from rfl,
    show PredictionForm.set PredictionForm.buildDefaults "hnr" none "mdvp_jitter_pct" = some ((0.00662 : ℚ)) from rfl,
    show PredictionForm.set PredictionForm.buildDefaults "hnr" none "mdvp_jitter_abs" = some ((0.000044 : ℚ)) from rfl,
    show PredictionForm.set PredictionForm.buildDefaults "hnr" none "mdvp_rap" = some ((0.00317 : ℚ)) from rfl,
    show PredictionForm.set PredictionForm.buildDefaults "hnr" none "mdvp_ppq" = some ((0.00349 : ℚ)) from rfl,
    show PredictionForm.set PredictionForm.buildDefaults "hnr" none "jitter_ddp" = some ((0.00951 : ℚ)) from rfl,
    show PredictionForm.set PredictionForm.buildDefaults "hnr" none "mdvp_shimmer" = some ((0.02971 : ℚ)) from rfl,
    show PredictionForm.set PredictionForm.buildDefaults "hnr" none "mdvp_shimmer_db" = some ((0.282 : ℚ)) from rfl,
    show PredictionForm.set PredictionForm.buildDefaults "hnr" none "shimmer_apq3" = some ((0.01497 : ℚ)) from rfl,
    show PredictionForm.set PredictionForm.buildDefaults "hnr" none "shimmer_apq5" = some ((0.01876 : ℚ)) from rfl,
    show PredictionForm.set PredictionForm.buildDefaults "hnr" none "mdvp_apq" = some ((0.02438 : ℚ)) from rfl,
    show PredictionForm.set PredictionForm.buildDefaults "hnr" none "shimmer_dda" = some ((0.04491 : ℚ)) from rfl,
    show PredictionForm.set PredictionForm.buildDefaults "hnr" none "nhr" = some ((0.02455 : ℚ)) from rfl,
    show PredictionForm.set PredictionForm.buildDefaults "hnr" none "hnr" = some ((0 : ℚ)) from rfl,
    show PredictionForm.set PredictionForm.buildDefaults "hnr" none "rpde" = some ((0.498536 : ℚ)) from rfl,
    show PredictionForm.set PredictionForm.buildDefaults "hnr" none "dfa" = some ((0.718099 : ℚ)) from rfl,
    show PredictionForm.set PredictionForm.buildDefaults "hnr" none "spread1" = some ((-5.684397 : ℚ)) from rfl,
    show PredictionForm.set PredictionForm.buildDefaults "hnr" none "spread2" = some ((0.226510 : ℚ)) from rfl,
    show PredictionForm.set PredictionForm.buildDefaults "hnr" none "d2" = some ((2.381826 : ℚ)) from rfl,
    show PredictionForm.set PredictionForm.buildDefaults "hnr" none "ppe" = some ((0.371345 : ℚ)) from rfl]

/-- After clearing the `hnr` input, every input of the form passes the
browser's constraint validation, so the form submits. -/
theorem cleared_hnr_all_valid :
    PredictionForm.ALL_FIELDS.all (fun f =>
      PredictionForm.fieldValidB
        (PredictionForm.set PredictionForm.buildDefaults "hnr" none) f) = true := by
  norm_num [PredictionForm.ALL_FIELDS, PredictionForm.FIELD_GROUPS,
    List.map_cons, List.map_nil, List.flatten_cons, List.flatten_nil,
    List.all_append, List.all_cons, List.all_nil,
    PredictionForm.fieldValidB, PredictionForm.displayedValue,
    show PredictionForm.set PredictionForm.buildDefaults "hnr" none "mdvp_fo" = some ((154.229 : ℚ)) from rfl,
    show PredictionForm.set PredictionForm.buildDefaults "hnr" none "mdvp_fhi" = some ((197.105 : ℚ)) from rfl,
    show PredictionForm.set PredictionForm.buildDefaults "hnr" none "mdvp_flo" = some ((116.325 : ℚ)) from rfl,
    show PredictionForm.set PredictionForm.buildDefaults "hnr" none "mdvp_jitter_pct" = some ((0.00662 : ℚ)) from rfl,
    show PredictionForm.set PredictionForm.buildDefaults "hnr" none "mdvp_jitter_abs" = some ((0.000044 : ℚ)) from rfl,
    show PredictionForm.set PredictionForm.buildDefaults "hnr" none "mdvp_rap" = some ((0.00317 : ℚ)) from rfl,
    show PredictionForm.set PredictionForm.buildDefaults "hnr" none "mdvp_ppq" = some ((0.00349 : ℚ)) from rfl,
    show PredictionForm.set PredictionForm.buildDefaults "hnr" none "jitter_ddp" = some ((0.00951 : ℚ)) from rfl,
    show PredictionForm.set PredictionForm.buildDefaults "hnr" none "mdvp_shimmer" = some ((0.02971 : ℚ)) from rfl,
    show PredictionForm.set PredictionForm.buildDefaults "hnr" none "mdvp_shimmer_db" = some ((0.282 : ℚ)) from rfl,
    show PredictionForm.set PredictionForm.buildDefaults "hnr" none "shimmer_apq3" = some ((0.01497 : ℚ)) from rfl,
    show PredictionForm.set PredictionForm.buildDefaults "hnr" none "shimmer_apq5" = some ((0.01876 : ℚ)) from rfl,
    show PredictionForm.set PredictionForm.buildDefaults "hnr" none "mdvp_apq" = some ((0.02438 : ℚ)) from rfl,
    show PredictionForm.set PredictionForm.buildDefaults "hnr" none "shimmer_dda" = some ((0.04491 : ℚ)) from rfl,
    show PredictionForm.set PredictionForm.buildDefaults "hnr" none "nhr" = some ((0.02455 : ℚ)) from rfl,
    show PredictionForm.set PredictionForm.buildDefaults "hnr" none "hnr" = some ((0 : ℚ)) from rfl,
    show PredictionForm.set PredictionForm.buildDefaults "hnr" none "rpde" = some ((0.498536 : ℚ)) from rfl,
    show PredictionForm.set PredictionForm.buildDefaults "hnr" none "dfa" = some ((0.718099 : ℚ)) from rfl,
    show PredictionForm.set PredictionForm.buildDefaults "hnr" none "spread1" = some ((-5.684397 : ℚ)) from rfl,
    show PredictionForm.set PredictionForm.buildDefaults "hnr" none "spread2" = some ((0.226510 : ℚ)) from rfl,
    show PredictionForm.set PredictionForm.buildDefaults "hnr" none "d2" = some ((2.381826 : ℚ)) from rfl,
    show PredictionForm.set PredictionForm.buildDefaults "hnr" none "ppe" = some ((0.371345 : ℚ)) from rfl]

/-- C1 counterexample: clearing the `hnr` input (a value `parseFloat` cannot
parse) stores `0` in the form state instead of removing the field; the
zero-filled value lies inside `hnr`'s documented `[0, 35]` range, so the
browser's constraint validation lets the form submit, and the operation
returns a `PredictionResult` — not `ValidationError{MissingField}` —
refuting the claim at this input. -/
theorem c1_counterexample :
    PredictionForm.set PredictionForm.buildDefaults "hnr" none "hnr" =
      some 0 ∧
    ((formSubmit sampleState
        (PredictionForm.set PredictionForm.buildDefaults "hnr" none)).map
      (fun e => e.toOption.isSome)) = some true := by
  refine ⟨rfl, ?_⟩
  have hok := valid_predict_ok sampleState
    (PredictionForm.set PredictionForm.buildDefaults "hnr" none)
    (by decide) cleared_hnr_all_inRange
  simp [formSubmit, cleared_hnr_all_valid, hok, Except.toOption]

/-- C1 amended: a missing or non-parseable field value is silently replaced
by `0` by the form's `set` handler (`parseFloat(val) || 0`), and the form
state stays complete on all 22 keys, so the operation never returns
`ValidationError{MissingField}` for a form submission.  The zero engages the
browser's constraint validation instead: a zero-filled field with positive
`min` (such as `mdvp_fo`, `min = 80`) blocks the submit event, so no request
is made at all, while a field whose range contains 0 (such as `hnr`) submits
and produces a `PredictionResult`. -/
theorem c1_amended_missing_field_default_zero
    (s : ServerState) (vals : PredictionForm.FormValues) (key : String)
    (parsed : Option ℚ)
    (hc : PredictionForm.completeB vals = true) :
    PredictionForm.set vals key parsed key =
      some (PredictionForm.jsOrZero parsed) ∧
    PredictionForm.completeB (PredictionForm.set vals key parsed) = true ∧
    (∀ k, (predict_from_features s (PredictionForm.set vals key parsed)).1 ≠
      Except.error (ValidationError.missingField k)) ∧
    formSubmit sampleState
      (PredictionForm.set PredictionForm.buildDefaults "mdvp_fo" none) = none := by
  have hself : PredictionForm.set vals key parsed key =
      some (PredictionForm.jsOrZero parsed) := by
    simp [PredictionForm.set]
  have hcomplete :
      PredictionForm.completeB (PredictionForm.set vals key parsed) = true := by
    apply List.all_eq_true.mpr
    intro k hk
    by_cases he : k == key
    · simp [PredictionForm.set, he]
    · have := List.all_eq_true.mp hc k hk
      simpa [PredictionForm.set, he] using this
  refine ⟨hself, hcomplete, ?_, ?_⟩
  · intro k
    have hfind := complete_find_none _ hcomplete
    cases hr : PredictionForm.ALL_FIELDS.find?
        (fun f => !(inRangeB (PredictionForm.set vals key parsed) f)) with
    | some f =>
        simp only [predict_from_features, hfind, hr]
        intro hcontra
        exact ValidationError.noConfusion (Except.error.inj hcontra)
    | none =>
        simp only [predict_from_features, hfind, hr]
        intro hcontra
        exact Except.noConfusion hcontra
  · have hbad : PredictionForm.fieldValidB
        (PredictionForm.set PredictionForm.buildDefaults "mdvp_fo" none)
        mdvpFoField = false := by
      norm_num [PredictionForm.fieldValidB, PredictionForm.displayedValue,
        mdvpFoField,
        show PredictionForm.set PredictionForm.buildDefaults "mdvp_fo" none
          "mdvp_fo" = some ((0 : ℚ)) from rfl]
    have hmem : mdvpFoField ∈ PredictionForm.ALL_FIELDS := by
      simp [mdvpFoField, PredictionForm.ALL_FIELDS, PredictionForm.FIELD_GROUPS]
    have hallf : PredictionForm.ALL_FIELDS.all (fun f =>
        PredictionForm.fieldValidB
          (PredictionForm.set PredictionForm.buildDefaults "mdvp_fo" none) f)
        = false := by
      cases hb : PredictionForm.ALL_FIELDS.all (fun f =>
          PredictionForm.fieldValidB
            (PredictionForm.set PredictionForm.buildDefaults "mdvp_fo" none) f) with
      | false => rfl
      | true =>
          have htrue := List.all_eq_true.mp hb _ hmem
          rw [hbad] at htrue
          exact absurd htrue (by simp)
    simp [formSubmit, hallf]

/-- Witness for C1's amended claim: clearing the `hnr` input on the default
form state. -/
theorem c1_amended_witness :
    PredictionForm.set PredictionForm.buildDefaults "hnr" none "hnr" =
      some (PredictionForm.jsOrZero none) ∧
    PredictionForm.completeB
      (PredictionForm.set PredictionForm.buildDefaults "hnr" none) = true ∧
    (predict_from_features sampleState
      (PredictionForm.set PredictionForm.buildDefaults "hnr" none)).1 ≠
      Except.error (ValidationError.missingField "mdvp_fo") ∧
    formSubmit sampleState
      (PredictionForm.set PredictionForm.buildDefaults "mdvp_fo" none) = none := by
  have h := c1_amended_missing_field_default_zero sampleState
    PredictionForm.buildDefaults "hnr" none (by decide)
  exact ⟨h.1, h.2.1, h.2.2.1 "mdvp_fo", h.2.2.2⟩

/-- `clamp01` stays within the unit interval. -/
theorem clamp01_nonneg (x : ℚ) : 0 ≤ clamp01 x := le_max_left 0 _

/-- `clamp01` stays within the unit interval. -/
theorem clamp01_le_one (x : ℚ) : clamp01 x ≤ 1 :=
  max_le (by norm_num) (min_le_left 1 x)

/-- C3: every `PredictionResult` the prediction operation returns has
`probability_healthy + probability_parkinson = 1` (exactly, hence within the
1e-6 tolerance), with both probabilities in `[0, 1]`. -/
theorem c3_probabilities_sum_to_one
    (s : ServerState) (vals : PredictionForm.FormValues) (r : PredictionResult)
    (h : (predict_from_features s vals).1 = Except.ok r) :
    r.probability_healthy + r.probability_parkinson = 1 ∧
    |r.probability_healthy + r.probability_parkinson - 1| ≤ 1 / 1000000 ∧
    0 ≤ r.probability_healthy ∧ r.probability_healthy ≤ 1 ∧
    0 ≤ r.probability_parkinson ∧ r.probability_parkinson ≤ 1 := by
  cases hf : PredictionForm.FEATURE_KEYS.find? (fun k => (vals k).isNone) with
  | some k => simp [predict_from_features, hf] at h
  | none =>
      cases hr : PredictionForm.ALL_FIELDS.find? (fun f => !(inRangeB vals f)) with
      | some f => simp [predict_from_features, hf, hr] at h
      | none =>
          simp [predict_from_features, hf, hr] at h
          subst h
          have h0 : 0 ≤ probParkinson (toVector vals) := clamp01_nonneg _
          have h1 : probParkinson (toVector vals) ≤ 1 := clamp01_le_one _
          refine ⟨by simp [mkResult], ?_, ?_, ?_, ?_, ?_⟩ <;>
            simp [mkResult] <;> linarith

/-- Witness for C3 on the healthy sample submission. -/
theorem c3_witness :
    (mkResult sampleState.metadata.shap_importance
        (toVector (PredictionForm.loadSample
          PredictionForm.SAMPLE_HEALTHY))).probability_healthy +
    (mkResult sampleState.metadata.shap_importance
        (toVector (PredictionForm.loadSample
          PredictionForm.SAMPLE_HEALTHY))).probability_parkinson = 1 :=
  (c3_probabilities_sum_to_one sampleState
    (PredictionForm.loadSample PredictionForm.SAMPLE_HEALTHY) _
    (valid_predict_ok sampleState
      (PredictionForm.loadSample PredictionForm.SAMPLE_HEALTHY)
      (by decide) healthy_all_inRange)).1

/-- C6: on the documented healthy sample vector the prediction operation
reports no detection and a risk level among VeryLow and Low. -/
theorem c6_healthy_sample_not_detected :
    ((predict_from_features sampleState
        (PredictionForm.loadSample PredictionForm.SAMPLE_HEALTHY)).1.toOption.map
      (fun r => (r.parkinson_detected,
        decide (r.risk_level = RiskLevel.veryLow ∨ r.risk_level = RiskLevel.low))))
      = some (false, true) := by
  have hppe : jsGet (PredictionForm.loadSample PredictionForm.SAMPLE_HEALTHY)
      "ppe" = 0.085569 := rfl
  have hp : probParkinson (toVector
      (PredictionForm.loadSample PredictionForm.SAMPLE_HEALTHY)) = 0.171138 := by
    simp only [probParkinson, toVector, hppe, clamp01]
    rw [min_eq_right (by norm_num), max_eq_right (by norm_num)]
    norm_num
  have hok : (predict_from_features sampleState
      (PredictionForm.loadSample PredictionForm.SAMPLE_HEALTHY)).1 =
      Except.ok (mkResult sampleState.metadata.shap_importance
        (toVector (PredictionForm.loadSample PredictionForm.SAMPLE_HEALTHY))) :=
    valid_predict_ok sampleState
      (PredictionForm.loadSample PredictionForm.SAMPLE_HEALTHY)
      (by decide) healthy_all_inRange
  have hdet : (mkResult sampleState.metadata.shap_importance
      (toVector (PredictionForm.loadSample
        PredictionForm.SAMPLE_HEALTHY))).parkinson_detected = false := by
    simp only [mkResult, hp, decide_eq_false_iff_not]
    norm_num
  have hrisk : (mkResult sampleState.metadata.shap_importance
      (toVector (PredictionForm.loadSample
        PredictionForm.SAMPLE_HEALTHY))).risk_level = RiskLevel.veryLow := by
    simp only [mkResult, hp, riskLevel]
    rw [if_pos (by norm_num)]
  rw [hok]
  show some ((mkResult sampleState.metadata.shap_importance
      (toVector (PredictionForm.loadSample
        PredictionForm.SAMPLE_HEALTHY))).parkinson_detected,
    decide _) = some (false, true)
  rw [hdet, hrisk]
  rfl

/-- C7: the prediction operation leaves the shared model state unchanged, so
calling it twice in sequence with the same 22-value input yields the same
result both times. -/
theorem c7_predict_deterministic
    (s : ServerState) (vals : PredictionForm.FormValues) :
    (predict_from_features s vals).2 = s ∧
    (predict_from_features ((predict_from_features s vals).2) vals).1 =
      (predict_from_features s vals).1 :=
  ⟨rfl, rfl⟩

/-- A pairwise-ordered list relates every kept element of `take n` to every
element of `drop n`. -/
theorem pairwise_take_drop {α : Type} {r : α → α → Prop} {l : List α}
    (h : List.Pairwise r l) (n : ℕ) :
    ∀ x ∈ l.take n, ∀ y ∈ l.drop n, r x y := by
  have hl : l.take n ++ l.drop n = l := List.take_append_drop n l
  rw [← hl] at h
  exact (List.pairwise_append.mp h).2.2

/-- C8: `get_metadata` returns the identical `shap_importance` association on
every pair of calls and leaves the state untouched; and when the artifact
lists its entries in descending importance (the spec's insertion-order
invariant), the dashboard's `shapData` — the first ten entries — carries
exactly the ten largest importances. -/
theorem c8_shap_stable_and_top10 (s : ServerState) :
    ((get_metadata ((get_metadata s).2)).1 = (get_metadata s).1 ∧
     (get_metadata s).2 = s) ∧
    (ModelDashboard.SortedDesc s.metadata.shap_importance →
      (ModelDashboard.shapData (get_metadata s).1).map Prod.fst =
        ((get_metadata s).1.shap_importance.take 10).map Prod.fst ∧
      ∀ x ∈ (get_metadata s).1.shap_importance.take 10,
        ∀ y ∈ (get_metadata s).1.shap_importance.drop 10, y.2 ≤ x.2) := by
  refine ⟨⟨rfl, rfl⟩, fun hs => ⟨?_, ?_⟩⟩
  · have hf : (Prod.fst ∘ fun p : String × ℚ => (p.1, ModelDashboard.round4 p.2))
        = Prod.fst := funext fun p => rfl
    simp [ModelDashboard.shapData, get_metadata, List.map_map, hf]
  · exact fun x hx y hy => pairwise_take_drop hs 10 x hx y hy

/-- Witness for C8 on the sample artifact, whose ranking is descending. -/
theorem c8_witness :
    (ModelDashboard.shapData (get_metadata sampleState).1).map Prod.fst =
      ((get_metadata sampleState).1.shap_importance.take 10).map Prod.fst :=
  ((c8_shap_stable_and_top10 sampleState).2
    (by norm_num [ModelDashboard.SortedDesc, sampleState,
      List.pairwise_cons, List.forall_mem_cons])).1
